import Mathlib

/-!
Verification development for the accessibility-compliance assessment engine
(`src/server/routes.ts` and its storage/schema collaborators).

The definitions below are a shallow embedding of the TypeScript source:
regex-driven markup scanning becomes explicit character-list scanners,
the rule evaluator and metric calculators become pure Lean functions,
and the HTTP handlers become state-transition functions over an explicit
storage state.  JavaScript numbers are modelled with `Nat`/`Int`/`Rat`
(`Math.round` on a nonnegative rational is `⌊q + 1/2⌋`).
-/

set_option maxRecDepth 4000

namespace A11y

/-- Conformance levels, from the zod enum `['A','AA','AAA']`. -/
inductive WcagLevel where
  | A | AA | AAA
deriving DecidableEq, Repr

/-- One evidence node of a violation (`nodes` entries in the source). -/
structure VNode where
  html : String
  target : List String
  failureSummary : String
deriving DecidableEq, Repr

/-- One violation record as constructed by the rule evaluator. -/
structure Violation where
  id : String
  impact : String
  tags : List String
  description : String
  help : String
  helpUrl : String
  nodes : List VNode
deriving DecidableEq, Repr

/-! ## String scanning primitives

JavaScript's global regex matching (`String.match(/…/g)`, `exec` loops)
scans left to right: at each index it attempts a match; on success it
continues after the matched text, on failure it advances one character.
The scanners below mirror that discipline on `List Char`, with fuel equal
to the input length (each successful match consumes at least one
character, so the fuel never runs out on real inputs). -/

/-- Case-insensitive character comparison (for the `i` regex flag). -/
def charCI (a b : Char) : Bool := a.toLower = b.toLower

/-- Does `hay` start with `pat` (case-sensitively)? -/
def hasPre : List Char → List Char → Bool
  | [], _ => true
  | _ :: _, [] => false
  | p :: ps, h :: hs => p = h && hasPre ps hs

/-- Match `pat` case-insensitively at the head of `hay`; return the
original (case-preserved) consumed characters and the remainder. -/
def matchCI : List Char → List Char → Option (List Char × List Char)
  | [], hay => some ([], hay)
  | _ :: _, [] => none
  | p :: ps, h :: hs =>
    if charCI p h then
      match matchCI ps hs with
      | some (pre, rest) => some (h :: pre, rest)
      | none => none
    else none

/-- `JS s.includes(needle)`: substring containment, case-sensitive. -/
def containsSub (hay needle : List Char) : Bool :=
  match hay with
  | [] => hasPre needle []
  | _ :: hs => hasPre needle hay || containsSub hs needle

/-- `String` wrapper for `containsSub`. -/
def incl (hay needle : String) : Bool := containsSub hay.data needle.data

/-- Consume characters up to and including the first `'>'`
(the `[^>]*>` tail of a tag regex); returns consumed text and rest. -/
def upToGt : List Char → Option (List Char × List Char)
  | [] => none
  | c :: rest =>
    if c = '>' then some ([c], rest)
    else
      match upToGt rest with
      | some (pre, post) => some (c :: pre, post)
      | none => none

/-- Generic driver for a global regex scan: try `t` at each position,
continue after a match, otherwise advance one character. -/
def scanAll {α : Type} (t : List Char → Option (α × List Char)) :
    Nat → List Char → List α
  | 0, _ => []
  | _ + 1, [] => []
  | n + 1, c :: rest =>
    match t (c :: rest) with
    | some (a, rest2) => a :: scanAll t n rest2
    | none => scanAll t n rest

/-- Driver for exec-style scans that also need the absolute index of the
match start (`match.index` in JS). -/
def scanAllIdx {α : Type} (t : Nat → List Char → Option (α × List Char)) :
    Nat → Nat → List Char → List α
  | 0, _, _ => []
  | _ + 1, _, [] => []
  | n + 1, i, c :: rest =>
    match t i (c :: rest) with
    | some (a, rest2) =>
      a :: scanAllIdx t n (i + (c :: rest).length - rest2.length) rest2
    | none => scanAllIdx t n (i + 1) rest

/-- First match of a non-global regex: try `t` at each position,
return the first success. -/
def firstMatch {α : Type} (t : List Char → Option (α × List Char)) :
    Nat → List Char → Option α
  | 0, _ => none
  | _ + 1, [] => none
  | n + 1, c :: rest =>
    match t (c :: rest) with
    | some (a, _) => some a
    | none => firstMatch t n rest

/-- Try regex `/<NAME[^>]*>/i` at the current position for a fixed tag
name: `'<'`, the name case-insensitively, then anything up to `'>'`.
Returns the matched text (original case) and the remainder. -/
def tryNamedTag (name : List Char) (cs : List Char) : Option (String × List Char) :=
  match cs with
  | '<' :: rest =>
    match matchCI name rest with
    | some (orig, rest2) =>
      match upToGt rest2 with
      | some (body, rest3) => some (⟨'<' :: orig ++ body⟩, rest3)
      | none => none
    | none => none
  | _ => none

/-- `/<img[^>]*>/gi` matches of a markup string, in order. -/
def imgMatches (html : String) : List String :=
  scanAll (tryNamedTag "img".data) html.length html.data

/-- `/<input[^>]*>/gi` matches of a markup string, in order. -/
def inputMatches (html : String) : List String :=
  scanAll (tryNamedTag "input".data) html.length html.data

/-- Try `/<h([1-6])[^>]*>/i` at the current position; returns the matched
tag text together with the captured heading level. -/
def tryHeading (cs : List Char) : Option ((String × Nat) × List Char) :=
  match cs with
  | '<' :: h :: d :: rest =>
    if charCI 'h' h ∧ '1' ≤ d ∧ d ≤ '6' then
      match upToGt rest with
      | some (body, rest2) =>
        some ((⟨'<' :: h :: d :: body⟩, d.toNat - '0'.toNat), rest2)
      | none => none
    else none
  | _ => none

/-- All heading-tag matches with their levels, in document order. -/
def headingMatches (html : String) : List (String × Nat) :=
  scanAll tryHeading html.length html.data

/-- The heading level sequence of a markup string. -/
def headingLevels (html : String) : List Nat :=
  (headingMatches html).map Prod.snd

/-- `JS s.substring(0, 100) + (s.length > 100 ? '...' : '')`:
the snippet truncation used by several rules. -/
def truncate100 (s : String) : String :=
  ⟨s.data.take 100⟩ ++ (if s.data.length > 100 then "..." else "")

/-! ## Translation tables (`translateViolation…` in `routes.ts`) -/

/-- `translateViolationDescription`. -/
def translateViolationDescription (violationId : String) : String :=
  if violationId = "image-alt" then "Obrazy muszą mieć tekst alternatywny"
  else if violationId = "color-contrast" then "Elementy muszą mieć wystarczający kontrast kolorów"
  else if violationId = "heading-order" then "Nagłówki powinny być ułożone w logicznej kolejności"
  else if violationId = "label" then "Elementy formularza muszą mieć etykiety"
  else if violationId = "link-name" then "Linki muszą mieć rozpoznawalną nazwę"
  else if violationId = "button-name" then "Przyciski muszą mieć rozpoznawalną nazwę"
  else if violationId = "aria-valid-attr" then "Atrybuty ARIA muszą być prawidłowe"
  else if violationId = "aria-required-attr" then "Wymagane atrybuty ARIA muszą być obecne"
  else if violationId = "html-has-lang" then "Element <html> musi mieć atrybut lang"
  else if violationId = "landmark-one-main" then "Strona musi mieć jeden region główny"
  else if violationId = "page-has-heading-one" then "Strona musi mieć nagłówek pierwszego poziomu"
  else if violationId = "region" then "Cała treść strony musi być zawarta w regionach"
  else if violationId = "skip-link" then "Strona powinna mieć łącze pomijania"
  else "Naruszenie dostępności"

/-- `translateViolationHelp`. -/
def translateViolationHelp (violationId : String) : String :=
  if violationId = "image-alt" then "Upewnij się, że każdy element obrazu ma znaczący tekst alternatywny"
  else if violationId = "color-contrast" then "Zapewnij wystarczający kontrast między kolorami pierwszego planu i tła"
  else if violationId = "heading-order" then "Nagłówki powinny wzrastać o jeden poziom naraz"
  else if violationId = "label" then "Każdy element formularza powinien mieć powiązaną etykietę"
  else if violationId = "link-name" then "Linki muszą mieć tekst opisujący ich cel"
  else if violationId = "button-name" then "Przyciski muszą mieć tekst opisujący ich funkcję"
  else if violationId = "aria-valid-attr" then "Sprawdź poprawność atrybutów ARIA"
  else if violationId = "aria-required-attr" then "Dodaj wymagane atrybuty ARIA"
  else if violationId = "html-has-lang" then "Dodaj atrybut lang do elementu <html>"
  else if violationId = "landmark-one-main" then "Oznacz główną treść za pomocą <main> lub role=\"main\""
  else if violationId = "page-has-heading-one" then "Dodaj nagłówek h1 na stronie"
  else if violationId = "region" then "Umieść treść w odpowiednich regionach semantycznych"
  else if violationId = "skip-link" then "Dodaj łącze pomijania na początku strony"
  else "Sprawdź dokumentację WCAG"

/-- `translateFailureSummary` (as called with no original message). -/
def translateFailureSummary (violationId : String) : String :=
  if violationId = "image-alt" then "Element nie ma atrybutu alt lub ma pusty tekst alt"
  else if violationId = "color-contrast" then "Element ma niewystarczający kontrast kolorów"
  else if violationId = "heading-order" then "Nieprawidłowa kolejność nagłówków"
  else if violationId = "label" then "Element formularza nie ma powiązanej etykiety"
  else if violationId = "link-name" then "Link nie ma rozpoznawalnej nazwy"
  else if violationId = "button-name" then "Przycisk nie ma rozpoznawalnej nazwy"
  else if violationId = "aria-valid-attr" then "Nieprawidłowy atrybut ARIA"
  else if violationId = "aria-required-attr" then "Brakuje wymaganego atrybutu ARIA"
  else if violationId = "html-has-lang" then "Element <html> nie ma atrybutu lang"
  else if violationId = "landmark-one-main" then "Brak głównego regionu na stronie"
  else if violationId = "page-has-heading-one" then "Brak nagłówka pierwszego poziomu"
  else if violationId = "region" then "Treść nie jest zawarta w regionach"
  else if violationId = "skip-link" then "Brak łącza pomijania"
  else "Wykryto naruszenie dostępności"

/-! ## Rule evaluator (`analyzeHTMLBasic` and its helpers in `routes.ts`) -/

/-- Case-sensitive tag match, for regexes without the `i` flag
(`/<html[^>]*>/` on line 691). -/
def tryNamedTagCS (name : List Char) (cs : List Char) : Option (String × List Char) :=
  match cs with
  | '<' :: rest =>
    if hasPre name rest then
      match upToGt (rest.drop name.length) with
      | some (body, rest2) => some (⟨'<' :: name ++ body⟩, rest2)
      | none => none
    else none
  | _ => none

/-- The missing/empty alt test on one `<img …>` match:
`!img.includes('alt=') || img.includes('alt=""') || img.includes("alt=''")`. -/
def missingAlt (img : String) : Bool :=
  !(incl img "alt=") || incl img "alt=\"\"" || incl img "alt=\x27\x27"

/-- The `image-alt` violation record pushed for image `img` at index `index`. -/
def imageViolation (img : String) (index : Nat) : Violation where
  id := "image-alt"
  impact := "critical"
  tags := ["wcag2a", "wcag111"]
  description := translateViolationDescription "image-alt"
  help := translateViolationHelp "image-alt"
  helpUrl := "https://dequeuniversity.com/rules/axe/4.7/image-alt"
  nodes := [{ html := truncate100 img
              target := ["img:nth-of-type(" ++ toString (index + 1) ++ ")"]
              failureSummary := translateFailureSummary "image-alt" }]

/-- Section 1 of `analyzeHTMLBasic`: image accessibility checks. -/
def imageFindings (html : String) : List Violation :=
  (imgMatches html).enum.filterMap fun p =>
    if missingAlt p.2 then some (imageViolation p.2 p.1) else none

/-- The unlabeled-input test on one `<input …>` match. -/
def missingLabel (i : String) : Bool :=
  (incl i "type=\"text\"" || incl i "type=\"email\"" || incl i "type=\"password\"")
    && !(incl i "aria-label=") && !(incl i "id=")

/-- The `label` violation record pushed for input `inp` at index `index`. -/
def labelViolation (inp : String) (index : Nat) : Violation where
  id := "label"
  impact := "critical"
  tags := ["wcag2a", "wcag332"]
  description := translateViolationDescription "label"
  help := translateViolationHelp "label"
  helpUrl := "https://dequeuniversity.com/rules/axe/4.7/label"
  nodes := [{ html := truncate100 inp
              target := ["input:nth-of-type(" ++ toString (index + 1) ++ ")"]
              failureSummary := translateFailureSummary "label" }]

/-- Section 2 of `analyzeHTMLBasic`: form accessibility checks. -/
def inputFindings (html : String) : List Violation :=
  (inputMatches html).enum.filterMap fun p =>
    if missingLabel p.2 then some (labelViolation p.2 p.1) else none

/-- Lazy tail of `/<title[^>]*>.*?<\/title>/`: consume up to the first
`</title>`, failing on a line terminator (JS `.` excludes them). -/
def lazyToCloseTitle : List Char → Option (List Char × List Char)
  | [] => none
  | c :: rest =>
    if hasPre "</title>".data (c :: rest) then
      some ("</title>".data, (c :: rest).drop 8)
    else if c = '\n' ∨ c = '\r' then none
    else
      match lazyToCloseTitle rest with
      | some (mid, post) => some (c :: mid, post)
      | none => none

/-- Try `/<title[^>]*>.*?<\/title>/` (case-sensitive) at this position. -/
def tryTitleFull (cs : List Char) : Option (String × List Char) :=
  match cs with
  | '<' :: rest =>
    if hasPre "title".data rest then
      match upToGt (rest.drop 5) with
      | some (body, rest2) =>
        match lazyToCloseTitle rest2 with
        | some (mid, rest3) => some (⟨'<' :: "title".data ++ body ++ mid⟩, rest3)
        | none => none
      | none => none
    else none
  | _ => none

/-- `html-has-doctype` violation (`validateHTMLStructure`). -/
def doctypeViolation : Violation where
  id := "html-has-doctype"
  impact := "serious"
  tags := ["wcag2a"]
  description := "Dokument HTML musi mieć deklarację DOCTYPE"
  help := "Dodaj deklarację DOCTYPE na początku dokumentu"
  helpUrl := "https://dequeuniversity.com/rules/axe/4.7/html-has-doctype"
  nodes := [{ html := "<html>"
              target := ["html"]
              failureSummary := "Brak deklaracji DOCTYPE w dokumencie" }]

/-- `html-has-lang` violation; the evidence is the raw first
`/<html[^>]*>/` match (untruncated), defaulting to `"<html>"`. -/
def langViolation (html : String) : Violation where
  id := "html-has-lang"
  impact := "critical"
  tags := ["wcag2a", "wcag311"]
  description := "Element <html> musi mieć atrybut lang"
  help := "Dodaj atrybut lang do elementu <html>"
  helpUrl := "https://dequeuniversity.com/rules/axe/4.7/html-has-lang"
  nodes := [{ html := (firstMatch (tryNamedTagCS "html".data) html.length html.data).getD "<html>"
              target := ["html"]
              failureSummary := "Element <html> nie ma atrybutu lang" }]

/-- `document-title` violation; evidence is the raw first
`/<title[^>]*>.*?<\/title>/` match, defaulting to `"<title></title>"`. -/
def titleViolation (html : String) : Violation where
  id := "document-title"
  impact := "critical"
  tags := ["wcag2a", "wcag242"]
  description := "Strona musi mieć tytuł opisujący jej temat lub cel"
  help := "Dodaj opisowy tytuł do elementu <title>"
  helpUrl := "https://dequeuniversity.com/rules/axe/4.7/document-title"
  nodes := [{ html := (firstMatch tryTitleFull html.length html.data).getD "<title></title>"
              target := ["title"]
              failureSummary := "Brak tytułu strony lub pusty tytuł" }]

/-- `validateHTMLStructure`. -/
def validateHTMLStructure (html : String) : List Violation :=
  (if !(incl html "<!DOCTYPE") && !(incl html "<!doctype") then [doctypeViolation] else [])
    ++ (if !(incl html "lang=") then [langViolation html] else [])
    ++ (if !(incl html "<title>") || incl html "<title></title>" then [titleViolation html] else [])

/-- The `heading-order` violation pushed inside `validateSemanticHTML`'s
forEach; the evidence is the raw matched heading tag. -/
def headingOrderViolation (tag : String) (level previousLevel index : Nat) : Violation where
  id := "heading-order"
  impact := "moderate"
  tags := ["wcag2a", "wcag131"]
  description := "Nagłówki powinny być ułożone w logicznej kolejności"
  help := "Nagłówki powinny wzrastać o jeden poziom naraz"
  helpUrl := "https://dequeuniversity.com/rules/axe/4.7/heading-order"
  nodes := [{ html := tag
              target := ["h" ++ toString level ++ ":nth-of-type(" ++ toString (index + 1) ++ ")"]
              failureSummary := "Nagłówek h" ++ toString level ++ " pojawia się po h"
                ++ toString previousLevel ++ ", pomijając poziomy pośrednie" }]

/-- The heading forEach of `validateSemanticHTML`: carries the running
`previousLevel` (initially 0) and the forEach index. -/
def headingFold (previousLevel index : Nat) : List (String × Nat) → List Violation
  | [] => []
  | (tag, level) :: rest =>
    (if previousLevel > 0 ∧ level > previousLevel + 1
      then [headingOrderViolation tag level previousLevel index] else [])
      ++ headingFold level (index + 1) rest

/-- `page-has-heading-one` violation; evidence is the first heading match. -/
def pageHeadingOneViolation (firstTag : String) : Violation where
  id := "page-has-heading-one"
  impact := "critical"
  tags := ["wcag2a"]
  description := "Strona powinna mieć nagłówek pierwszego poziomu"
  help := "Dodaj nagłówek h1 na stronie"
  helpUrl := "https://dequeuniversity.com/rules/axe/4.7/page-has-heading-one"
  nodes := [{ html := firstTag
              target := ["h1, h2, h3, h4, h5, h6"]
              failureSummary := "Strona nie ma nagłówka pierwszego poziomu (h1)" }]

/-- `landmark-one-main` violation. -/
def landmarkViolation : Violation where
  id := "landmark-one-main"
  impact := "moderate"
  tags := ["wcag2a"]
  description := "Strona powinna mieć jeden główny region landmark"
  help := "Dodaj element <main> lub role=\x27main\x27 do głównej treści"
  helpUrl := "https://dequeuniversity.com/rules/axe/4.7/landmark-one-main"
  nodes := [{ html := "<body>"
              target := ["body"]
              failureSummary := "Brak głównego regionu landmark na stronie" }]

/-- The `page-has-heading-one` part of `validateSemanticHTML`
(`!hasH1 && headingMatches.length > 0`). -/
def pageH1Part (hs : List (String × Nat)) : List Violation :=
  match hs with
  | [] => []
  | first :: _ => if hs.any (fun p => p.2 = 1) then [] else [pageHeadingOneViolation first.1]

/-- `validateSemanticHTML`. -/
def validateSemanticHTML (html : String) : List Violation :=
  let hs := headingMatches html
  headingFold 0 0 hs
    ++ pageH1Part hs
    ++ (if !(incl html "<main" || incl html "role=\"main\"") then [landmarkViolation] else [])

/-- The allow-list `validAriaAttributes`. -/
def validAriaAttributes : List String :=
  ["aria-label", "aria-labelledby", "aria-describedby", "aria-hidden",
   "aria-expanded", "aria-current", "aria-live", "aria-atomic",
   "aria-controls", "aria-owns", "aria-flowto", "aria-required",
   "aria-invalid", "aria-disabled", "aria-readonly", "aria-checked",
   "aria-selected", "aria-pressed", "aria-level", "aria-setsize",
   "aria-posinset", "aria-orientation", "aria-sort", "aria-multiline",
   "aria-multiselectable", "aria-autocomplete", "aria-haspopup"]

/-- A character matched by `[a-z-]` under the `i` flag. -/
def isAriaNameChar (c : Char) : Bool :=
  ('a' ≤ c.toLower && c.toLower ≤ 'z') || c = '-'

/-- Try `/aria-([a-z-]+)="[^"]*"/i` at this position; returns the whole
match and the captured attribute-name group (original case). -/
def tryAriaMatch (cs : List Char) : Option ((String × String) × List Char) :=
  match matchCI "aria-".data cs with
  | none => none
  | some (orig5, rest1) =>
    let run := rest1.takeWhile isAriaNameChar
    if run = [] then none
    else
      match rest1.drop run.length with
      | '=' :: '"' :: rest3 =>
        let val := rest3.takeWhile (· ≠ '"')
        match rest3.drop val.length with
        | '"' :: rest5 =>
          some ((⟨orig5 ++ run ++ '=' :: '"' :: val ++ ['"']⟩, ⟨run⟩), rest5)
        | _ => none
      | _ => none

/-- `aria-valid-attr` violation for match text `m` naming `attribute`. -/
def ariaViolation (m attrName : String) : Violation where
  id := "aria-valid-attr"
  impact := "critical"
  tags := ["wcag2a", "wcag412"]
  description := "Atrybuty ARIA muszą być prawidłowe"
  help := "Sprawdź poprawność nazw atrybutów ARIA"
  helpUrl := "https://dequeuniversity.com/rules/axe/4.7/aria-valid-attr"
  nodes := [{ html := m
              target := ["[" ++ attrName ++ "]"]
              failureSummary := "Nieprawidłowy atrybut ARIA: " ++ attrName }]

/-- `validateARIAAttributes`: the attribute name is rebuilt as
`'aria-' + match[1]` and checked against the allow-list. -/
def validateARIAAttributes (html : String) : List Violation :=
  (scanAll tryAriaMatch html.length html.data).filterMap fun p =>
    let attrName := "aria-" ++ p.2
    if !(validAriaAttributes.contains attrName) then some (ariaViolation p.1 attrName)
    else none

/-- JS `\s` whitespace (the variants relevant to text input). -/
def isJsSpace (c : Char) : Bool :=
  c = ' ' || c = '\t' || c = '\n' || c = '\r' || c = '\x0b' || c = '\x0c' ||
    c = ' ' || c = '﻿'

/-- A character matched by ``[^;"`]``. -/
def isColorValChar (c : Char) : Bool :=
  c ≠ ';' && c ≠ '"' && c ≠ '\x60'

/-- Tail ``color\s*:\s*[^;"`]+`` of the contrast regex: if it matches a
prefix of `B`, return the number of characters consumed. -/
def tryColorTail (B : List Char) : Option Nat :=
  match matchCI "color".data B with
  | none => none
  | some (_, r1) =>
    let s1 := r1.takeWhile isJsSpace
    match r1.drop s1.length with
    | ':' :: r3 =>
      let s2 := r3.takeWhile isJsSpace
      let run := (r3.drop s2.length).takeWhile isColorValChar
      if run = [] then none
      else some (5 + s1.length + 1 + s2.length + run.length)
    | _ => none

/-- Greedy backtracking of `[^"]*` before `color…`: try the longest
split `R = A ++ B` first (`Arev` is `A` reversed); on success return
`(A.length, tail length)`. -/
def greedyColorSearch : List Char → List Char → Option (Nat × Nat)
  | Arev, B =>
    match tryColorTail B with
    | some m => some (Arev.length, m)
    | none =>
      match Arev with
      | [] => none
      | c :: Arev2 => greedyColorSearch Arev2 (c :: B)

/-- Try ``/style="[^"]*color\s*:\s*([^;"`]+)/i`` at absolute index `i`;
on success return the match index and the rest of the input. -/
def tryColorIdx (i : Nat) (cs : List Char) : Option (Nat × List Char) :=
  match matchCI "style=\"".data cs with
  | none => none
  | some (_, rest1) =>
    let R := rest1.takeWhile (· ≠ '"')
    match greedyColorSearch R.reverse [] with
    | some (k, m) => some (i, cs.drop (7 + k + m))
    | none => none

/-- Try `/<[^>]+>/` at this position (the element lookup in the
contrast-window slice). -/
def tryAngleElem (cs : List Char) : Option (String × List Char) :=
  match cs with
  | '<' :: c2 :: rest =>
    if c2 = '>' then none
    else
      match upToGt (c2 :: rest) with
      | some (body, rest2) => some (⟨'<' :: body⟩, rest2)
      | none => none
  | _ => none

/-- `html.substring(Math.max(0, idx - 100), idx + 200).match(/<[^>]+>/)`. -/
def elementNear (html : String) (idx : Nat) : Option String :=
  let start := idx - 100
  let window := (html.data.drop start).take (min (idx + 200) html.data.length - start)
  firstMatch tryAngleElem window.length window

/-- `color-contrast` violation for the element found near a match. -/
def contrastViolation (elem : String) : Violation where
  id := "color-contrast"
  impact := "serious"
  tags := ["wcag2aa", "wcag143"]
  description := "Elementy muszą mieć wystarczający kontrast kolorów"
  help := "Sprawdź kontrast między tekstem a tłem"
  helpUrl := "https://dequeuniversity.com/rules/axe/4.7/color-contrast"
  nodes := [{ html := truncate100 elem
              target := ["[style*=\x27color\x27]"]
              failureSummary := "Element wymaga sprawdzenia kontrastu kolorów" }]

/-- `analyzeColorContrast` (run only at levels AA and AAA). -/
def analyzeColorContrast (html : String) : List Violation :=
  (scanAllIdx tryColorIdx html.length 0 html.data).filterMap fun idx =>
    (elementNear html idx).map contrastViolation

/-- One of the six alternatives `(a|button|input|select|textarea|area)`
is a case-insensitive prefix here (`a` subsumes `area`). -/
def interactiveNameAt (rest : List Char) : Bool :=
  (matchCI "a".data rest).isSome || (matchCI "button".data rest).isSome ||
    (matchCI "input".data rest).isSome || (matchCI "select".data rest).isSome ||
    (matchCI "textarea".data rest).isSome

/-- Try `/<(a|button|input|select|textarea|area)[^>]*>/i` at this position. -/
def tryInteractive (cs : List Char) : Option (String × List Char) :=
  match cs with
  | '<' :: rest =>
    if interactiveNameAt rest then
      match upToGt rest with
      | some (body, rest2) => some (⟨'<' :: body⟩, rest2)
      | none => none
    else none
  | _ => none

/-- JS `\w` (ASCII word character). -/
def isWordChar (c : Char) : Bool := c.isAlpha || c.isDigit || c = '_'

/-- `element.match(/<(\w+)/)?.[1]?.toLowerCase()`. -/
def elementType (m : String) : String :=
  ⟨((m.data.drop 1).takeWhile isWordChar).map Char.toLower⟩

/-- `link-name` violation for anchor `el` at index `index`. -/
def linkNameViolation (el : String) (index : Nat) : Violation where
  id := "link-name"
  impact := "serious"
  tags := ["wcag2a", "wcag244"]
  description := "Linki muszą mieć rozpoznawalną nazwę"
  help := "Dodaj atrybut href do linku lub użyj button"
  helpUrl := "https://dequeuniversity.com/rules/axe/4.7/link-name"
  nodes := [{ html := truncate100 el
              target := ["a:nth-of-type(" ++ toString (index + 1) ++ ")"]
              failureSummary := "Link bez atrybutu href nie jest dostępny z klawiatury" }]

/-- `focusable-element` violation for element `el` at index `index`. -/
def focusableViolation (el : String) (index : Nat) : Violation where
  id := "focusable-element"
  impact := "serious"
  tags := ["wcag2a", "wcag211"]
  description := "Elementy interaktywne muszą być dostępne z klawiatury"
  help := "Dodaj tabindex=\x270\x27 do elementów z obsługą zdarzeń"
  helpUrl := "https://dequeuniversity.com/rules/axe/4.7/focusable-element"
  nodes := [{ html := truncate100 el
              target := ["[onclick]:nth-of-type(" ++ toString (index + 1) ++ ")"]
              failureSummary := "Element interaktywny bez dostępu z klawiatury" }]

/-- `validateKeyboardAccessibility`. -/
def validateKeyboardAccessibility (html : String) : List Violation :=
  ((scanAll tryInteractive html.length html.data).enum).flatMap fun p =>
    let ty := elementType p.2
    (if ty = "a" ∧ !(incl p.2 "href=") then [linkNameViolation p.2 p.1] else [])
      ++ (if incl p.2 "onclick=" ∧ !(incl p.2 "tabindex=")
            ∧ !(["button", "input", "select", "textarea", "a"].contains ty)
          then [focusableViolation p.2 p.1] else [])

/-- `analyzeHTMLBasic`: the fallback rule evaluator.  The `url` argument
is unused by the source function but kept for signature fidelity. -/
def analyzeHTMLBasic (html : String) (_url : String) (wcagLevel : WcagLevel) : List Violation :=
  imageFindings html
    ++ inputFindings html
    ++ validateHTMLStructure html
    ++ validateSemanticHTML html
    ++ validateARIAAttributes html
    ++ (if wcagLevel = .AA ∨ wcagLevel = .AAA then analyzeColorContrast html else [])
    ++ validateKeyboardAccessibility html

/-- `calculateBasicPassedTests`: fixed bonuses for structural signals
plus the flat baseline 15.  The level argument is unused by the source. -/
def calculateBasicPassedTests (html : String) (_wcagLevel : WcagLevel) : Nat :=
  (if incl html "<title>" then 5 else 0)
    + (if incl html "lang=" then 5 else 0)
    + (if incl html "charset=" then 3 else 0)
    + (if incl html "<h1" then 3 else 0)
    + (if incl html "<!DOCTYPE" then 2 else 0)
    + (if incl html "<nav>" || incl html "navigation" then 5 else 0)
    + (if incl html "<main>" || incl html "id=\"main\"" then 5 else 0)
    + 15

/-- Try `/<[^\/][^>]*>/` at this position (one opening-tag occurrence). -/
def tryCountElem (cs : List Char) : Option (Unit × List Char) :=
  match cs with
  | '<' :: c2 :: rest =>
    if c2 = '/' then none
    else
      match upToGt rest with
      | some (_, rest2) => some ((), rest2)
      | none => none
  | _ => none

/-- `countHTMLElements`: number of `/<[^\/][^>]*>/g` matches. -/
def countHTMLElements (html : String) : Nat :=
  (scanAll tryCountElem html.length html.data).length

/-! ## Score calculation (`performAccessibilityScan`) -/

/-- `Math.round` on a nonnegative rational: round half up. -/
def jsRound (q : ℚ) : ℤ := ⌊q + 1 / 2⌋

/-- The primary-path score (line 452):
`passedTests > 0 ? Math.round((passedTests / (passedTests + totalViolations)) * 100) : 0`. -/
def complianceScorePrimary (passedTests totalViolations : ℕ) : ℤ :=
  if 0 < passedTests then
    jsRound (((passedTests : ℚ) / ((passedTests : ℚ) + (totalViolations : ℚ))) * 100)
  else 0

/-- The fallback-path score (line 482), with no zero guard:
`Math.round((passedTests / (passedTests + totalViolations)) * 100)`. -/
def complianceScoreFallback (passedTests totalViolations : ℕ) : ℤ :=
  jsRound (((passedTests : ℚ) / ((passedTests : ℚ) + (totalViolations : ℚ))) * 100)

/-! ## Scan records and the scan lifecycle (`performAccessibilityScan`) -/

/-- One `scan_results` row (`src/shared/schema.ts`); timestamps are not
modelled. -/
structure ScanRecord where
  id : Nat
  url : String
  status : String
  violations : List Violation
  passedTests : Nat
  elementsScanned : Nat
  complianceScore : ℤ
  wcagLevel : WcagLevel
  errorMessage : Option String
deriving DecidableEq, Repr

/-- `MemStorage.updateScanResult`: merge the update into the record with
the given id, leave every other record unchanged (and do nothing when the
id is absent, mirroring the `undefined` return). -/
def updateScanResult (scans : List ScanRecord) (id : Nat) (f : ScanRecord → ScanRecord) :
    List ScanRecord :=
  scans.map fun s => if s.id = id then f s else s

/-- The data the primary (puppeteer + axe) path produces when it succeeds:
processed violations, `results.passes?.length || 0`, and the page's element
count.  The acquisition itself is an external collaborator, so its outcome
is a parameter of the lifecycle model. -/
structure AxeOutcome where
  violations : List Violation
  passedTests : Nat
  elementsScanned : Nat
deriving DecidableEq, Repr

/-- `performAccessibilityScan` as a state transition on the scan store.
The two external acquisition steps are parameters: `primary` is the
outcome of the puppeteer/axe path (its `catch` covers every fault up to
and including the `finally` block) and `curl` is the outcome of the
`execSync` fetch in the fallback path.  Success on the primary path
stores the axe metrics with the guarded score; failure falls back to
`analyzeHTMLBasic`; failure of both stores the Failed transition with the
fixed Polish error message. -/
def performAccessibilityScan (primary : Except String AxeOutcome)
    (curl : Except String String) (scanId : Nat) (url : String)
    (wcagLevel : WcagLevel) (scans : List ScanRecord) : List ScanRecord :=
  match primary with
  | .ok o =>
    updateScanResult scans scanId fun s =>
      { s with status := "completed", violations := o.violations,
               passedTests := o.passedTests, elementsScanned := o.elementsScanned,
               complianceScore := complianceScorePrimary o.passedTests o.violations.length,
               wcagLevel := wcagLevel }
  | .error _ =>
    match curl with
    | .ok curlResult =>
      let violations := analyzeHTMLBasic curlResult url wcagLevel
      let passedTests := calculateBasicPassedTests curlResult wcagLevel
      updateScanResult scans scanId fun s =>
        { s with status := "completed", violations := violations,
                 passedTests := passedTests,
                 elementsScanned := countHTMLElements curlResult,
                 complianceScore := complianceScoreFallback passedTests violations.length,
                 wcagLevel := wcagLevel }
    | .error _ =>
      updateScanResult scans scanId fun s =>
        { s with status := "failed",
                 errorMessage := some "Nie udało się przeskanować strony internetowej" }

/-! ## Audit sessions (`/api/audit/start`, `initializeWcagCriteria`) -/

/-- One `audit_sessions` row; `status` defaults to `'in_progress'` in the
schema and timestamps are not modelled. -/
structure AuditSession where
  id : Nat
  scanId : Nat
  auditorName : String
  status : String
  notes : Option String
deriving DecidableEq, Repr

/-- One `wcag_criteria` row; the schema declares
`status: … .default('not_evaluated')`. -/
structure WcagCriteriaRow where
  id : Nat
  auditSessionId : Nat
  criteriaId : String
  title : String
  level : WcagLevel
  status : String
  notes : Option String
deriving DecidableEq, Repr

/-- The audit-side storage state (sessions, criteria, id counters). -/
structure AuditStore where
  sessions : List AuditSession
  criteria : List WcagCriteriaRow
  nextSessionId : Nat
  nextCriteriaId : Nat
deriving DecidableEq, Repr

/-- The empty audit store (serial ids start at 1). -/
def emptyAuditStore : AuditStore :=
  { sessions := [], criteria := [], nextSessionId := 1, nextCriteriaId := 1 }

/-- Modelled from the spec: the persistence collaborator's
`createAuditSession` (its implementation is absent from the sources: only
the `IStorage` interface declares it).  Per §6 it creates a record under a
fresh opaque identifier; the `'in_progress'` status default comes from the
schema in the sources. -/
def createAuditSession (store : AuditStore) (scanId : Nat) (auditorName : String) :
    AuditSession × AuditStore :=
  let s : AuditSession :=
    { id := store.nextSessionId, scanId := scanId, auditorName := auditorName,
      status := "in_progress", notes := none }
  (s, { store with sessions := store.sessions ++ [s],
                   nextSessionId := store.nextSessionId + 1 })

/-- Modelled from the spec: the persistence collaborator's
`getAuditSessionByScanId` (implementation absent from the sources);
per §6 it returns the stored session for that scan, or "not found". -/
def getAuditSessionByScanId (store : AuditStore) (scanId : Nat) : Option AuditSession :=
  store.sessions.find? fun s => s.scanId == scanId

/-- One catalog entry of `getWcagCriteriaDefinitions`. -/
structure CriterionDef where
  id : String
  title : String
  level : WcagLevel
  sectionName : String
deriving DecidableEq, Repr

/-- The full criteria catalog (`allCriteria` in `routes.ts`). -/
def allCriteria : List CriterionDef :=
  [⟨"1.1.1", "Treść nietekstowa", .A, "1.1 Alternatywa tekstowa"⟩,
   ⟨"1.2.1", "Tylko audio lub tylko wideo (nagranie)", .A, "1.2 Multimedia"⟩,
   ⟨"1.2.2", "Napisy rozszerzone (nagranie)", .A, "1.2 Multimedia"⟩,
   ⟨"1.2.3", "Audiodeskrypcja lub alternatywa tekstowa dla mediów (nagranie)", .A, "1.2 Multimedia"⟩,
   ⟨"1.3.1", "Informacje i relacje", .A, "1.3 Możliwość adaptacji"⟩,
   ⟨"1.3.2", "Zrozumiała kolejność", .A, "1.3 Możliwość adaptacji"⟩,
   ⟨"1.3.3", "Właściwości zmysłowe", .A, "1.3 Możliwość adaptacji"⟩,
   ⟨"1.4.1", "Użycie koloru", .A, "1.4 Rozróżnialność"⟩,
   ⟨"1.4.2", "Kontrola odtwarzania dźwięku", .A, "1.4 Rozróżnialność"⟩,
   ⟨"2.1.1", "Klawiatura", .A, "2.1 Dostępność z klawiatury"⟩,
   ⟨"2.1.2", "Brak pułapki klawiatury", .A, "2.1 Dostępność z klawiatury"⟩,
   ⟨"2.2.1", "Możliwość dostosowania czasu", .A, "2.2 Wystarczająco dużo czasu"⟩,
   ⟨"2.2.2", "Pauza, zatrzymanie, ukrycie", .A, "2.2 Wystarczająco dużo czasu"⟩,
   ⟨"2.3.1", "Trzy błyski lub wartości poniżej progu", .A, "2.3 Ataki padaczkowe i reakcje fizyczne"⟩,
   ⟨"2.4.1", "Pominięcie bloków", .A, "2.4 Możliwość nawigacji"⟩,
   ⟨"2.4.2", "Tytuł strony", .A, "2.4 Możliwość nawigacji"⟩,
   ⟨"2.4.3", "Kolejność fokusa", .A, "2.4 Możliwość nawigacji"⟩,
   ⟨"2.4.4", "Cel linku (w kontekście)", .A, "2.4 Możliwość nawigacji"⟩,
   ⟨"3.1.1", "Język strony", .A, "3.1 Czytelność"⟩,
   ⟨"3.2.1", "Po ustawieniu fokusa", .A, "3.2 Przewidywalność"⟩,
   ⟨"3.2.2", "Podczas wprowadzania danych", .A, "3.2 Przewidywalność"⟩,
   ⟨"3.3.1", "Identyfikacja błędu", .A, "3.3 Pomoc w wprowadzaniu danych"⟩,
   ⟨"3.3.2", "Etykiety lub instrukcje", .A, "3.3 Pomoc w wprowadzaniu danych"⟩,
   ⟨"4.1.1", "Parsowanie", .A, "4.1 Zgodność"⟩,
   ⟨"4.1.2", "Nazwa, rola, wartość", .A, "4.1 Zgodność"⟩,
   ⟨"1.2.4", "Napisy rozszerzone (na żywo)", .AA, "1.2 Multimedia"⟩,
   ⟨"1.2.5", "Audiodeskrypcja (nagranie)", .AA, "1.2 Multimedia"⟩,
   ⟨"1.3.4", "Orientacja", .AA, "1.3 Możliwość adaptacji"⟩,
   ⟨"1.3.5", "Określenie pożądanej wartości", .AA, "1.3 Możliwość adaptacji"⟩,
   ⟨"1.4.3", "Kontrast (minimalny)", .AA, "1.4 Rozróżnialność"⟩,
   ⟨"1.4.4", "Zmiana rozmiaru tekstu", .AA, "1.4 Rozróżnialność"⟩,
   ⟨"1.4.5", "Obrazy tekstu", .AA, "1.4 Rozróżnialność"⟩,
   ⟨"1.4.10", "Dopasowanie do ekranu", .AA, "1.4 Rozróżnialność"⟩,
   ⟨"1.4.11", "Kontrast elementów nietekstowych", .AA, "1.4 Rozróżnialność"⟩,
   ⟨"1.4.12", "Odstępy w tekście", .AA, "1.4 Rozróżnialność"⟩,
   ⟨"1.4.13", "Treść po najechaniu lub ustawieniu fokusa", .AA, "1.4 Rozróżnialność"⟩,
   ⟨"2.1.4", "Skróty klawiaturowe znaków", .AA, "2.1 Dostępność z klawiatury"⟩,
   ⟨"2.4.5", "Wiele sposobów", .AA, "2.4 Możliwość nawigacji"⟩,
   ⟨"2.4.6", "Nagłówki i etykiety", .AA, "2.4 Możliwość nawigacji"⟩,
   ⟨"2.4.7", "Widoczny fokus", .AA, "2.4 Możliwość nawigacji"⟩,
   ⟨"3.1.2", "Język części", .AA, "3.1 Czytelność"⟩,
   ⟨"3.2.3", "Stała nawigacja", .AA, "3.2 Przewidywalność"⟩,
   ⟨"3.2.4", "Stała identyfikacja", .AA, "3.2 Przewidywalność"⟩,
   ⟨"3.3.3", "Sugestie dotyczące błędów", .AA, "3.3 Pomoc w wprowadzaniu danych"⟩,
   ⟨"3.3.4", "Zapobieganie błędom (prawne, finansowe, dane)", .AA, "3.3 Pomoc w wprowadzaniu danych"⟩,
   ⟨"4.1.3", "Komunikaty o stanie", .AA, "4.1 Zgodność"⟩,
   ⟨"1.2.6", "Język migowy (nagranie)", .AAA, "1.2 Multimedia"⟩,
   ⟨"1.2.7", "Rozszerzona audiodeskrypcja (nagranie)", .AAA, "1.2 Multimedia"⟩,
   ⟨"1.2.8", "Alternatywa dla mediów (nagranie)", .AAA, "1.2 Multimedia"⟩,
   ⟨"1.2.9", "Tylko audio (na żywo)", .AAA, "1.2 Multimedia"⟩,
   ⟨"1.4.6", "Kontrast (wzmocniony)", .AAA, "1.4 Rozróżnialność"⟩,
   ⟨"1.4.7", "Niska lub brak dźwięku w tle", .AAA, "1.4 Rozróżnialność"⟩,
   ⟨"1.4.8", "Wizualna prezentacja", .AAA, "1.4 Rozróżnialność"⟩,
   ⟨"1.4.9", "Obrazy tekstu (bez wyjątków)", .AAA, "1.4 Rozróżnialność"⟩]

/-- `getWcagCriteriaDefinitions`: filter the catalog by the scan's level
(levels accumulate). -/
def getWcagCriteriaDefinitions (wcagLevel : WcagLevel) : List CriterionDef :=
  match wcagLevel with
  | .A => allCriteria.filter fun c => c.level = .A
  | .AA => allCriteria.filter fun c => c.level = .A ∨ c.level = .AA
  | .AAA => allCriteria

/-- Modelled from the spec: the persistence collaborator's
`createWcagCriteria` (implementation absent from the sources).  The
caller (`initializeWcagCriteria`) supplies no `status`, so the row takes
the schema default `'not_evaluated'`. -/
def createWcagCriteria (store : AuditStore) (auditSessionId : Nat) (cd : CriterionDef) :
    AuditStore :=
  { store with
      criteria := store.criteria ++
        [{ id := store.nextCriteriaId, auditSessionId := auditSessionId,
           criteriaId := cd.id, title := cd.title, level := cd.level,
           status := "not_evaluated", notes := none }],
      nextCriteriaId := store.nextCriteriaId + 1 }

/-- `initializeWcagCriteria`: one `createWcagCriteria` per catalog entry
applicable to the level. -/
def initializeWcagCriteria (auditSessionId : Nat) (wcagLevel : WcagLevel)
    (store : AuditStore) : AuditStore :=
  (getWcagCriteriaDefinitions wcagLevel).foldl
    (fun st cd => createWcagCriteria st auditSessionId cd) store

/-- `storage.getScanResult` (the `MemStorage` map lookup). -/
def getScanResult (scans : List ScanRecord) (scanId : Nat) : Option ScanRecord :=
  scans.find? fun s => s.id == scanId

/-- The `/api/audit/start` handler as a state transition: 404 when the
scan does not exist; otherwise return the existing session for that
`scanId` if any, else create a session and seed its criteria rows. -/
def startSession (scans : List ScanRecord) (store : AuditStore)
    (scanId : Nat) (auditorName : String) : Except String AuditSession × AuditStore :=
  match getScanResult scans scanId with
  | none => (.error "Skanowanie nie zostało znalezione", store)
  | some scanResult =>
    match getAuditSessionByScanId store scanId with
    | some existingSession => (.ok existingSession, store)
    | none =>
      let p := createAuditSession store scanId auditorName
      let store2 := initializeWcagCriteria p.1.id scanResult.wcagLevel p.2
      (.ok p.1, store2)

/-! ## Criterion mapper (`getStatusForCriteria` in the report generator) -/

/-- The `ruleId → criteria` table `criteriaMap` (default `[]`). -/
def criteriaMap (criteriaId : String) : List String :=
  if criteriaId = "1.1.1" then ["image-alt", "input-image-alt", "area-alt", "object-alt"]
  else if criteriaId = "1.3.1" then
    ["label", "form-field-multiple-labels", "heading-order", "landmark-one-main",
     "page-has-heading-one"]
  else if criteriaId = "1.4.3" then ["color-contrast"]
  else if criteriaId = "1.4.4" then ["meta-viewport"]
  else if criteriaId = "2.1.1" then ["keyboard", "focusable-element"]
  else if criteriaId = "2.1.2" then ["focus-order-semantics", "focus-visible"]
  else if criteriaId = "2.4.1" then ["bypass", "skip-link"]
  else if criteriaId = "2.4.2" then ["document-title"]
  else if criteriaId = "2.4.3" then ["tabindex"]
  else if criteriaId = "2.4.4" then ["link-name"]
  else if criteriaId = "2.4.6" then ["empty-heading"]
  else if criteriaId = "2.4.7" then ["focus-order-semantics"]
  else if criteriaId = "3.1.1" then ["html-has-lang"]
  else if criteriaId = "3.2.2" then ["select-name"]
  else if criteriaId = "4.1.1" then ["duplicate-id", "html-has-doctype"]
  else if criteriaId = "4.1.2" then ["button-name", "input-button-name", "aria-valid-attr"]
  else []

/-- `criteriaId.replace(/\./g, '')`. -/
def stripDots (s : String) : String := ⟨s.data.filter (· ≠ '.')⟩

/-- The per-tag test inside `hasTagViolation` (the `||`-chain of
`tag.includes(…)` checks, with `&&` binding tighter than `||`). -/
def tagCheck (tag criteriaId : String) : Bool :=
  incl tag ("wcag" ++ stripDots criteriaId)
    || incl tag ("wcag2a" ++ stripDots criteriaId)
    || incl tag ("wcag2aa" ++ stripDots criteriaId)
    || (incl tag "wcag111" && criteriaId = "1.1.1")
    || (incl tag "wcag131" && criteriaId = "1.3.1")
    || (incl tag "wcag143" && criteriaId = "1.4.3")
    || (incl tag "wcag211" && criteriaId = "2.1.1")
    || (incl tag "wcag241" && criteriaId = "2.4.1")
    || (incl tag "wcag242" && criteriaId = "2.4.2")
    || (incl tag "wcag244" && criteriaId = "2.4.4")
    || (incl tag "wcag311" && criteriaId = "3.1.1")
    || (incl tag "wcag332" && criteriaId = "3.3.2")
    || (incl tag "wcag412" && criteriaId = "4.1.2")

/-- `getStatusForCriteria`: the criterion mapper used by the report
generator — "Spełnione" (passed) by default, "Niespełnione" (failed) when
a violation's ruleId or tags implicate the criterion. -/
def getStatusForCriteria (violations : List Violation) (criteriaId : String) : String :=
  if violations.length = 0 then "Spełnione"
  else
    let hasDirectViolation := violations.any fun v => (criteriaMap criteriaId).contains v.id
    let hasTagViolation := violations.any fun v => v.tags.any fun tag => tagCheck tag criteriaId
    if hasDirectViolation || hasTagViolation then "Niespełnione" else "Spełnione"

/-! ## Concrete fixtures used by the claims -/

/-- The end-to-end scenario markup of the spec. -/
def demoMarkup : String := "<html><body><img src=\"x.png\"></body></html>"

/-- Markup whose heading level sequence is `[1, 2, 4]`. -/
def skipMarkup : String := "<h1>a</h1><h2>b</h2><h4>c</h4>"

/-- Markup whose heading level sequence is `[1, 2, 3]`. -/
def noSkipMarkup : String := "<h1>a</h1><h2>b</h2><h3>c</h3>"

/-- A root tag longer than 100 characters and with no `lang` attribute. -/
def longAttrTag : String := "<html " ++ ⟨List.replicate 100 'a'⟩ ++ ">"

/-- A stored scan still in `pending` state. -/
def pendingScan : ScanRecord :=
  { id := 1, url := "https://example.com", status := "pending", violations := [],
    passedTests := 0, elementsScanned := 0, complianceScore := 0,
    wcagLevel := .A, errorMessage := none }

/-- A completed scan whose findings include a missing-alt violation. -/
def completedScan : ScanRecord :=
  { id := 1, url := "https://example.com", status := "completed",
    violations := [imageViolation "<img src=\"logo.png\">" 0],
    passedTests := 20, elementsScanned := 40, complianceScore := 95,
    wcagLevel := .A, errorMessage := none }

/-- The criteria row for 1.1.1 created by `startSession` on
`completedScan` over the empty store. -/
def seededRow111 : WcagCriteriaRow :=
  { id := 1, auditSessionId := 1, criteriaId := "1.1.1",
    title := "Treść nietekstowa", level := .A, status := "not_evaluated", notes := none }

/-- `pendingScan` after the doubly-failed evaluation path. -/
def failedPendingScan : ScanRecord :=
  { pendingScan with
      status := "failed"
      errorMessage := some "Nie udało się przeskanować strony internetowej" }

/-- The evidence node of the `image-alt` finding on `"<img>"`. -/
def sampleImgNode : VNode :=
  { html := truncate100 "<img>"
    target := ["img:nth-of-type(1)"]
    failureSummary := translateFailureSummary "image-alt" }

/-- The heading-sequence skip count named by the spec: one per heading
whose level exceeds the immediately preceding heading's level by more
than one (the first heading has no preceding level). -/
def skipsFrom (prev : Nat) : List Nat → Nat
  | [] => 0
  | l :: rest => (if l > prev + 1 then 1 else 0) + skipsFrom l rest

/-- Skip count of a whole level sequence (first heading never counts). -/
def headingSkipCount : List Nat → Nat
  | [] => 0
  | l :: rest => skipsFrom l rest

/-- The ruleIds whose evidence snippets go through `truncate100`. -/
def truncatingRuleIds : List String :=
  ["image-alt", "label", "color-contrast", "link-name", "focusable-element"]

/-! ## Helper lemmas -/

theorem jsRound_nonneg {q : ℚ} (h : 0 ≤ q) : 0 ≤ jsRound q := by
  unfold jsRound
  exact Int.le_floor.mpr (by push_cast; linarith)

theorem jsRound_le_100 {q : ℚ} (h : q ≤ 100) : jsRound q ≤ 100 := by
  unfold jsRound
  have : ⌊q + 1 / 2⌋ < 101 := Int.floor_lt.mpr (by push_cast; linarith)
  omega

theorem jsRound_100 : jsRound 100 = 100 := by
  unfold jsRound
  norm_num

theorem calculateBasicPassedTests_ge_15 (html : String) (lvl : WcagLevel) :
    15 ≤ calculateBasicPassedTests html lvl :=
  Nat.le_add_left 15 _

/-! ## C1 -/

/-- C1: the primary-path compliance score is an integer in [0, 100]; it
equals 100 whenever the finding list is empty and `passedTests > 0`, and
is defined as 0 (not a division fault) when both terms are zero. -/
theorem c1_score_bounds (p v : ℕ) :
    0 ≤ complianceScorePrimary p v ∧ complianceScorePrimary p v ≤ 100
      ∧ (v = 0 → 0 < p → complianceScorePrimary p v = 100)
      ∧ (p = 0 → v = 0 → complianceScorePrimary p v = 0) := by
  unfold complianceScorePrimary
  by_cases hp : 0 < p
  · have hpq : (0 : ℚ) < (p : ℚ) := by exact_mod_cast hp
    have hd : (0 : ℚ) < (p : ℚ) + (v : ℚ) := by positivity
    have hq0 : 0 ≤ ((p : ℚ) / ((p : ℚ) + (v : ℚ))) * 100 := by positivity
    have hq1 : ((p : ℚ) / ((p : ℚ) + (v : ℚ))) * 100 ≤ 100 := by
      have hle : (p : ℚ) / ((p : ℚ) + (v : ℚ)) ≤ 1 := by
        rw [div_le_one hd]
        have : (0 : ℚ) ≤ (v : ℚ) := by positivity
        linarith
      nlinarith
    refine ⟨?_, ?_, ?_, ?_⟩
    · simpa [hp] using jsRound_nonneg hq0
    · simpa [hp] using jsRound_le_100 hq1
    · intro hv _
      subst hv
      have h100 : ((p : ℚ) / ((p : ℚ) + ((0 : ℕ) : ℚ))) * 100 = 100 := by
        field_simp
      simp only [hp, if_pos]
      rw [h100]
      exact jsRound_100
    · intro h0
      omega
  · have hp0 : p = 0 := by omega
    subst hp0
    simp

/-- C1 witness: the score is 100 for 5 passes and no findings, and 0 when
both counts are zero. -/
theorem c1_score_bounds_witness :
    complianceScorePrimary 5 0 = 100 ∧ complianceScorePrimary 0 0 = 0 :=
  ⟨(c1_score_bounds 5 0).2.2.1 rfl (by norm_num),
   (c1_score_bounds 0 0).2.2.2 rfl rfl⟩

/-! ## C10 -/

/-- C10: `calculateBasicPassedTests` always returns at least the flat
baseline 15, so the fallback score's denominator is strictly positive and
the division is defined for every markup and level. -/
theorem c10_fallback_denominator (html url : String) (lvl : WcagLevel) :
    15 ≤ calculateBasicPassedTests html lvl
      ∧ 0 < calculateBasicPassedTests html lvl + (analyzeHTMLBasic html url lvl).length
      ∧ ((calculateBasicPassedTests html lvl : ℚ)
          + ((analyzeHTMLBasic html url lvl).length : ℚ)) ≠ 0 := by
  have h := calculateBasicPassedTests_ge_15 html lvl
  refine ⟨h, by omega, ?_⟩
  have hp : (15 : ℚ) ≤ (calculateBasicPassedTests html lvl : ℚ) := by exact_mod_cast h
  have hv : (0 : ℚ) ≤ ((analyzeHTMLBasic html url lvl).length : ℚ) := by positivity
  intro hc
  linarith

/-! ## C3 -/

/-- C3 counterexample: the `/api/audit/start` handler creates a session
for a scan whose status is `pending` — it is not rejected. -/
theorem c3_pending_scan_accepted :
    pendingScan.status = "pending"
      ∧ (startSession [pendingScan] emptyAuditStore 1 "Audytor").1 =
          .ok { id := 1, scanId := 1, auditorName := "Audytor",
                status := "in_progress", notes := none } :=
  ⟨rfl, rfl⟩

/-- C3 (amended): `startSession` is rejected (with the Polish
"scan not found" message) exactly when the referenced scan does not
exist; when the scan exists, a session is returned regardless of its
status (Pending and Failed included). -/
theorem c3_reject_only_missing (scans : List ScanRecord) (store : AuditStore)
    (scanId : Nat) (name : String) :
    (getScanResult scans scanId = none →
        (startSession scans store scanId name).1 = .error "Skanowanie nie zostało znalezione")
      ∧ ∀ scan, getScanResult scans scanId = some scan →
          ∃ s, (startSession scans store scanId name).1 = .ok s := by
  constructor
  · intro h
    unfold startSession
    rw [h]
  · intro scan h
    unfold startSession
    rw [h]
    cases hf : getAuditSessionByScanId store scanId with
    | some s => exact ⟨s, rfl⟩
    | none => exact ⟨_, rfl⟩

/-- C3 witness: a missing scan id is rejected; an existing pending scan
yields a session. -/
theorem c3_reject_only_missing_witness :
    (startSession [] emptyAuditStore 1 "A").1 = .error "Skanowanie nie zostało znalezione"
      ∧ ∃ s, (startSession [pendingScan] emptyAuditStore 1 "A").1 = .ok s :=
  ⟨(c3_reject_only_missing [] emptyAuditStore 1 "A").1 rfl,
   (c3_reject_only_missing [pendingScan] emptyAuditStore 1 "A").2 pendingScan rfl⟩

/-! ## C6 -/

/-- C6 counterexample: on the end-to-end scenario markup at Base level
the evaluator returns five findings, not exactly one. -/
theorem c6_not_single_finding :
    (analyzeHTMLBasic demoMarkup "https://example.com" .A).length ≠ 1
      ∧ (analyzeHTMLBasic demoMarkup "https://example.com" .A).length = 5 := by
  decide

/-- C6 (amended): on `<html><body><img src="x.png"></body></html>` at
Base level the evaluator returns five findings — exactly one of them the
missing-alt rule (`image-alt`, the spec's `missing-alt-text`), the others
the structural doctype/lang/title and landmark checks; `elementsScanned`
is 3 (html, body, img); the baseline passed-check estimate is 15 and the
fallback compliance score is 75. -/
theorem c6_end_to_end :
    (analyzeHTMLBasic demoMarkup "https://example.com" .A).map Violation.id
        = ["image-alt", "html-has-doctype", "html-has-lang", "document-title",
           "landmark-one-main"]
      ∧ ((analyzeHTMLBasic demoMarkup "https://example.com" .A).filter
            (fun f => f.id = "image-alt")).length = 1
      ∧ countHTMLElements demoMarkup = 3
      ∧ calculateBasicPassedTests demoMarkup .A = 15
      ∧ complianceScoreFallback (calculateBasicPassedTests demoMarkup .A)
          (analyzeHTMLBasic demoMarkup "https://example.com" .A).length = 75 := by
  refine ⟨by decide, by decide, by decide, by decide, ?_⟩
  have h1 : calculateBasicPassedTests demoMarkup .A = 15 := by decide
  have h2 : (analyzeHTMLBasic demoMarkup "https://example.com" .A).length = 5 := by decide
  rw [h1, h2]
  unfold complianceScoreFallback jsRound
  norm_num

/-! ## C4 -/

theorem foldl_createWcagCriteria_status (defs : List CriterionDef) :
    ∀ (st : AuditStore) (sid : Nat) (c : WcagCriteriaRow),
      c ∈ (defs.foldl (fun st cd => createWcagCriteria st sid cd) st).criteria →
      c ∈ st.criteria ∨ c.status = "not_evaluated" := by
  induction defs with
  | nil => intro st sid c h; exact Or.inl h
  | cons d ds ih =>
    intro st sid c h
    rcases ih (createWcagCriteria st sid d) sid c h with h1 | h2
    · unfold createWcagCriteria at h1
      simp only [List.mem_append, List.mem_singleton] at h1
      rcases h1 with h1 | h1
      · exact Or.inl h1
      · subst h1; exact Or.inr rfl
    · exact Or.inr h2

/-- C4 counterexample: after `startSession` on a completed scan carrying
a missing-alt finding, the 1.1.1 criterion row is `not_evaluated`, even
though the criterion mapper reports the criterion as failed for those
findings. -/
theorem c4_seed_not_from_mapper :
    ((startSession [completedScan] emptyAuditStore 1 "Audytor").2.criteria.filter
        (fun c => c.criteriaId = "1.1.1")).map (fun c => c.status) = ["not_evaluated"]
      ∧ getStatusForCriteria completedScan.violations "1.1.1" = "Niespełnione"
      ∧ ("not_evaluated" : String) ≠ "failed" ∧ ("not_evaluated" : String) ≠ "passed" := by
  refine ⟨by decide, by decide, by decide, by decide⟩

/-- C4 (amended): every CriterionEvaluation created by `startSession`
starts in the `not_evaluated` schema-default state; the Criterion Mapper
is not consulted at seeding time (it is only used by the report
generator). -/
theorem c4_initial_status_not_evaluated (scans : List ScanRecord) (store : AuditStore)
    (scanId : Nat) (name : String) (c : WcagCriteriaRow)
    (h : c ∈ (startSession scans store scanId name).2.criteria) :
    c ∈ store.criteria ∨ c.status = "not_evaluated" := by
  unfold startSession at h
  cases hg : getScanResult scans scanId with
  | none => rw [hg] at h; exact Or.inl h
  | some scan =>
    rw [hg] at h
    cases hf : getAuditSessionByScanId store scanId with
    | some s => rw [hf] at h; exact Or.inl h
    | none =>
      rw [hf] at h
      simp only at h
      unfold initializeWcagCriteria at h
      have h3 := foldl_createWcagCriteria_status
        (getWcagCriteriaDefinitions scan.wcagLevel)
        (createAuditSession store scanId name).2
        (createAuditSession store scanId name).1.id c h
      exact h3.imp_left fun hx => hx

/-- C4 witness: the freshly created 1.1.1 row is in the default state. -/
theorem c4_initial_status_witness :
    seededRow111 ∈ emptyAuditStore.criteria ∨ seededRow111.status = "not_evaluated" :=
  c4_initial_status_not_evaluated [completedScan] emptyAuditStore 1 "Audytor"
    seededRow111 (by decide)

/-! ## C5 -/

theorem foldl_createWcagCriteria_sessions (defs : List CriterionDef) :
    ∀ (st : AuditStore) (sid : Nat),
      (defs.foldl (fun st cd => createWcagCriteria st sid cd) st).sessions = st.sessions := by
  induction defs with
  | nil => intro st sid; rfl
  | cons d ds ih => intro st sid; exact ih (createWcagCriteria st sid d) sid

theorem startSession_existing {scans : List ScanRecord} {store : AuditStore}
    {scanId : Nat} {name : String} {scan : ScanRecord} {s : AuditSession}
    (h1 : getScanResult scans scanId = some scan)
    (h2 : getAuditSessionByScanId store scanId = some s) :
    startSession scans store scanId name = (.ok s, store) := by
  unfold startSession
  rw [h1, h2]

theorem startSession_new {scans : List ScanRecord} {store : AuditStore}
    {scanId : Nat} {name : String} {scan : ScanRecord}
    (h1 : getScanResult scans scanId = some scan)
    (h2 : getAuditSessionByScanId store scanId = none) :
    startSession scans store scanId name =
      (.ok { id := store.nextSessionId, scanId := scanId, auditorName := name,
             status := "in_progress", notes := none },
       initializeWcagCriteria store.nextSessionId scan.wcagLevel
         (createAuditSession store scanId name).2) := by
  unfold startSession
  rw [h1, h2]
  rfl

/-- C5: with the scan present, starting a session twice returns the same
session record both times and the second call leaves the audit store
(sessions and criteria rows alike) unchanged. -/
theorem c5_idempotent_start (scans : List ScanRecord) (store : AuditStore)
    (scanId : Nat) (name : String) (scan : ScanRecord)
    (hscan : getScanResult scans scanId = some scan) :
    (∃ s, (startSession scans store scanId name).1 = .ok s
        ∧ (startSession scans (startSession scans store scanId name).2 scanId name).1 = .ok s)
      ∧ (startSession scans (startSession scans store scanId name).2 scanId name).2
          = (startSession scans store scanId name).2 := by
  cases hf : getAuditSessionByScanId store scanId with
  | some s =>
    have e1 := @startSession_existing scans store scanId name scan s hscan hf
    have h2nd : (startSession scans store scanId name).2 = store := by rw [e1]
    rw [h2nd, e1]
    exact ⟨⟨s, rfl, rfl⟩, rfl⟩
  | none =>
    have e1 := @startSession_new scans store scanId name scan hscan hf
    set newSess : AuditSession :=
      { id := store.nextSessionId, scanId := scanId, auditorName := name,
        status := "in_progress", notes := none } with hns
    set store2 :=
      initializeWcagCriteria store.nextSessionId scan.wcagLevel
        (createAuditSession store scanId name).2 with hs2
    have hsess : store2.sessions = store.sessions ++ [newSess] := by
      rw [hs2]
      unfold initializeWcagCriteria
      rw [foldl_createWcagCriteria_sessions]
      rfl
    have hfind : getAuditSessionByScanId store2 scanId = some newSess := by
      unfold getAuditSessionByScanId at hf ⊢
      rw [hsess, List.find?_append, hf]
      simp
    have e2 := @startSession_existing scans store2 scanId name scan newSess hscan hfind
    have h2nd : (startSession scans store scanId name).2 = store2 := by rw [e1]
    rw [h2nd, e1, e2]
    exact ⟨⟨newSess, rfl, rfl⟩, rfl⟩

/-- C5 witness: concrete double start on a completed scan. -/
theorem c5_idempotent_start_witness :
    (∃ s, (startSession [completedScan] emptyAuditStore 1 "Jan").1 = .ok s
        ∧ (startSession [completedScan]
            (startSession [completedScan] emptyAuditStore 1 "Jan").2 1 "Jan").1 = .ok s)
      ∧ (startSession [completedScan]
          (startSession [completedScan] emptyAuditStore 1 "Jan").2 1 "Jan").2
          = (startSession [completedScan] emptyAuditStore 1 "Jan").2 :=
  c5_idempotent_start [completedScan] emptyAuditStore 1 "Jan" completedScan rfl

/-! ## C8 -/

theorem mem_updateScanResult {scans : List ScanRecord} {id : Nat}
    {f : ScanRecord → ScanRecord} {s : ScanRecord}
    (h : s ∈ updateScanResult scans id f) (hs : s.id = id) :
    ∃ r ∈ scans, s = f r := by
  unfold updateScanResult at h
  rcases List.mem_map.mp h with ⟨r, hr, hfr⟩
  by_cases hrid : r.id = id
  · refine ⟨r, hr, ?_⟩
    rw [← hfr]
    simp [hrid]
  · exfalso
    simp only [hrid, if_false] at hfr
    rw [← hfr] at hs
    exact hrid hs

/-- C8: whatever the outcomes of the primary (puppeteer/axe) path and of
the fallback fetch, the evaluated scan record ends `completed`, or
`failed` with the fixed descriptive error message — never `pending`, and
the transition function is total (no exception escapes). -/
theorem c8_always_terminal (primary : Except String AxeOutcome)
    (curl : Except String String) (scanId : Nat) (url : String)
    (lvl : WcagLevel) (scans : List ScanRecord) (s : ScanRecord)
    (h : s ∈ performAccessibilityScan primary curl scanId url lvl scans)
    (hs : s.id = scanId) :
    s.status = "completed"
      ∨ (s.status = "failed"
          ∧ s.errorMessage = some "Nie udało się przeskanować strony internetowej") := by
  unfold performAccessibilityScan at h
  cases primary with
  | ok o =>
    rcases mem_updateScanResult h hs with ⟨r, _, rfl⟩
    exact Or.inl rfl
  | error e =>
    cases curl with
    | ok curlResult =>
      rcases mem_updateScanResult h hs with ⟨r, _, rfl⟩
      exact Or.inl rfl
    | error e2 =>
      rcases mem_updateScanResult h hs with ⟨r, _, rfl⟩
      exact Or.inr ⟨rfl, rfl⟩

/-- C8 witness: a pending record under a doubly failing evaluation ends
`failed` with the descriptive message. -/
theorem c8_always_terminal_witness :
    failedPendingScan.status = "completed"
      ∨ (failedPendingScan.status = "failed"
          ∧ failedPendingScan.errorMessage
              = some "Nie udało się przeskanować strony internetowej") :=
  c8_always_terminal (.error "launch failed") (.error "curl failed") 1
    "https://example.com" .AA [pendingScan] failedPendingScan (by decide) rfl

/-! ## Per-section characterizations of the evaluator's output -/

theorem imageFindings_shape {html : String} {f : Violation} (h : f ∈ imageFindings html) :
    ∃ img idx, f = imageViolation img idx := by
  unfold imageFindings at h
  rcases List.mem_filterMap.mp h with ⟨⟨idx, img⟩, _, hf⟩
  simp only at hf
  split_ifs at hf with hm
  exact ⟨img, idx, (Option.some.inj hf).symm⟩

theorem inputFindings_shape {html : String} {f : Violation} (h : f ∈ inputFindings html) :
    ∃ inp idx, f = labelViolation inp idx := by
  unfold inputFindings at h
  rcases List.mem_filterMap.mp h with ⟨⟨idx, inp⟩, _, hf⟩
  simp only at hf
  split_ifs at hf with hm
  exact ⟨inp, idx, (Option.some.inj hf).symm⟩

theorem structure_id {html : String} {f : Violation} (h : f ∈ validateHTMLStructure html) :
    f.id = "html-has-doctype" ∨ f.id = "html-has-lang" ∨ f.id = "document-title" := by
  unfold validateHTMLStructure at h
  simp only [List.mem_append] at h
  rcases h with (h | h) | h
  · split_ifs at h with hc
    · simp only [List.mem_singleton] at h
      subst h
      exact Or.inl rfl
    · exact absurd h (by simp)
  · split_ifs at h with hc
    · simp only [List.mem_singleton] at h
      subst h
      exact Or.inr (Or.inl rfl)
    · exact absurd h (by simp)
  · split_ifs at h with hc
    · simp only [List.mem_singleton] at h
      subst h
      exact Or.inr (Or.inr rfl)
    · exact absurd h (by simp)

theorem headingFold_id {f : Violation} :
    ∀ (hs : List (String × Nat)) (prev idx : Nat), f ∈ headingFold prev idx hs →
      f.id = "heading-order" := by
  intro hs
  induction hs with
  | nil => intro prev idx h; simp [headingFold] at h
  | cons hd rest ih =>
    intro prev idx h
    obtain ⟨tag, lvl⟩ := hd
    simp only [headingFold, List.mem_append] at h
    rcases h with h | h
    · split_ifs at h with hc
      · simp only [List.mem_singleton] at h
        subst h
        rfl
      · exact absurd h (by simp)
    · exact ih lvl (idx + 1) h

theorem pageH1Part_id {f : Violation} {hs : List (String × Nat)}
    (h : f ∈ pageH1Part hs) : f.id = "page-has-heading-one" := by
  unfold pageH1Part at h
  match hs, h with
  | first :: rest, h =>
    split_ifs at h with hc
    · exact absurd h (by simp)
    · simp only [List.mem_singleton] at h
      subst h
      rfl

theorem semantic_id {html : String} {f : Violation} (h : f ∈ validateSemanticHTML html) :
    f.id = "heading-order" ∨ f.id = "page-has-heading-one" ∨ f.id = "landmark-one-main" := by
  unfold validateSemanticHTML at h
  simp only [List.mem_append] at h
  rcases h with (h | h) | h
  · exact Or.inl (headingFold_id _ _ _ h)
  · exact Or.inr (Or.inl (pageH1Part_id h))
  · split_ifs at h with hc
    · simp only [List.mem_singleton] at h
      subst h
      exact Or.inr (Or.inr rfl)
    · exact absurd h (by simp)

theorem aria_shape {html : String} {f : Violation} (h : f ∈ validateARIAAttributes html) :
    ∃ m a, f = ariaViolation m a := by
  unfold validateARIAAttributes at h
  rcases List.mem_filterMap.mp h with ⟨⟨m, cap⟩, _, hf⟩
  simp only at hf
  split_ifs at hf with hm
  exact ⟨m, "aria-" ++ cap, (Option.some.inj hf).symm⟩

theorem contrast_shape {html : String} {f : Violation} (h : f ∈ analyzeColorContrast html) :
    ∃ el, f = contrastViolation el := by
  unfold analyzeColorContrast at h
  rcases List.mem_filterMap.mp h with ⟨idx, _, hf⟩
  rcases Option.map_eq_some'.mp hf with ⟨el, _, hel⟩
  exact ⟨el, hel.symm⟩

theorem keyboard_shape {html : String} {f : Violation}
    (h : f ∈ validateKeyboardAccessibility html) :
    (∃ el idx, f = linkNameViolation el idx) ∨ (∃ el idx, f = focusableViolation el idx) := by
  unfold validateKeyboardAccessibility at h
  rcases List.mem_flatMap.mp h with ⟨⟨idx, el⟩, _, hf⟩
  simp only [List.mem_append] at hf
  rcases hf with hf | hf
  · split_ifs at hf with hc
    · simp only [List.mem_singleton] at hf
      subst hf
      exact Or.inl ⟨el, idx, rfl⟩
    · exact absurd hf (by simp)
  · split_ifs at hf with hc
    · simp only [List.mem_singleton] at hf
      subst hf
      exact Or.inr ⟨el, idx, rfl⟩
    · exact absurd hf (by simp)

theorem contrastBlock_filter_nil (html : String) (lvl : WcagLevel) (needle : String)
    (hne : needle ≠ "color-contrast") :
    ((if lvl = .AA ∨ lvl = .AAA then analyzeColorContrast html else []).filter
        (fun f => f.id = needle)) = [] := by
  split_ifs with hl
  · refine List.filter_eq_nil_iff.mpr fun f hf => ?_
    rcases contrast_shape hf with ⟨el, rfl⟩
    simpa [contrastViolation] using fun he => hne he.symm
  · rfl

/-! ## Heading-order counting lemmas (C2) -/

theorem tryHeading_level {cs : List Char} {a : String × Nat} {rest : List Char}
    (h : tryHeading cs = some (a, rest)) : 1 ≤ a.2 := by
  unfold tryHeading at h
  split at h
  · rename_i c1 c2 t
    split_ifs at h with hcond
    · obtain ⟨hh, h1, h6⟩ := hcond
      split at h
      · rename_i body rest2 hup
        simp only [Option.some.injEq, Prod.mk.injEq] at h
        obtain ⟨hpa, -⟩ := h
        subst hpa
        simp [Char.le_def] at h1
        have h2 : 49 ≤ c2.val.toNat := by
          simpa [UInt32.le_def] using h1
        have h3 : c2.toNat = c2.val.toNat := rfl
        show 1 ≤ c2.toNat - Char.toNat '0'
        have h48 : Char.toNat '0' = 48 := rfl
        rw [h48, h3]
        omega
      · exact absurd h (by simp)
  · exact absurd h (by simp)

theorem scanAll_tryHeading_level :
    ∀ (n : Nat) (cs : List Char) (p : String × Nat),
      p ∈ scanAll tryHeading n cs → 1 ≤ p.2 := by
  intro n
  induction n with
  | zero => intro cs p h; simp [scanAll] at h
  | succ m ih =>
    intro cs p h
    cases cs with
    | nil => simp [scanAll] at h
    | cons c rest =>
      rw [scanAll] at h
      cases ht : tryHeading (c :: rest) with
      | some ar =>
        rw [ht] at h
        rcases List.mem_cons.mp h with h | h
        · subst h
          exact @tryHeading_level (c :: rest) ar.1 ar.2 (by rw [ht])
        · exact ih ar.2 p h
      | none =>
        rw [ht] at h
        exact ih rest p h

theorem headingMatches_levels (html : String) :
    ∀ p ∈ headingMatches html, 1 ≤ p.2 := fun p hp =>
  scanAll_tryHeading_level html.length html.data p hp

theorem headingFold_length (hs : List (String × Nat)) :
    ∀ prev idx, (∀ p ∈ hs, 1 ≤ p.2) → 1 ≤ prev →
      (headingFold prev idx hs).length = skipsFrom prev (hs.map Prod.snd) := by
  induction hs with
  | nil => intro prev idx _ _; rfl
  | cons hd rest ih =>
    intro prev idx hall hprev
    obtain ⟨tag, lvl⟩ := hd
    have h1 : 1 ≤ lvl := hall (tag, lvl) (by simp)
    have ihh := ih lvl (idx + 1) (fun p hp => hall p (by simp [hp])) h1
    simp only [headingFold, skipsFrom, List.map_cons, List.length_append, ihh]
    split_ifs with hc1 hc2 hc2
    · rfl
    · exact absurd hc1.2 hc2
    · exact absurd ⟨by omega, hc2⟩ hc1
    · rfl

theorem headingFold_zero_length (hs : List (String × Nat)) (idx : Nat)
    (hall : ∀ p ∈ hs, 1 ≤ p.2) :
    (headingFold 0 idx hs).length = headingSkipCount (hs.map Prod.snd) := by
  cases hs with
  | nil => rfl
  | cons hd rest =>
    obtain ⟨tag, lvl⟩ := hd
    have h1 : 1 ≤ lvl := hall (tag, lvl) (by simp)
    simp only [headingFold, headingSkipCount, List.map_cons]
    rw [if_neg (by omega)]
    simp only [List.nil_append]
    exact headingFold_length rest lvl (idx + 1) (fun p hp => hall p (by simp [hp])) h1

theorem analyzeHTMLBasic_headingOrder_filter (html url : String) (lvl : WcagLevel) :
    (analyzeHTMLBasic html url lvl).filter (fun f => f.id = "heading-order")
      = headingFold 0 0 (headingMatches html) := by
  unfold analyzeHTMLBasic
  simp only [List.filter_append]
  have himg : (imageFindings html).filter (fun f => f.id = "heading-order") = [] := by
    refine List.filter_eq_nil_iff.mpr fun f hf => ?_
    rcases imageFindings_shape hf with ⟨i, j, rfl⟩
    simp [imageViolation]
  have hinp : (inputFindings html).filter (fun f => f.id = "heading-order") = [] := by
    refine List.filter_eq_nil_iff.mpr fun f hf => ?_
    rcases inputFindings_shape hf with ⟨i, j, rfl⟩
    simp [labelViolation]
  have hstruct : (validateHTMLStructure html).filter (fun f => f.id = "heading-order") = [] := by
    refine List.filter_eq_nil_iff.mpr fun f hf => ?_
    rcases structure_id hf with h | h | h <;> simp [h]
  have haria : (validateARIAAttributes html).filter (fun f => f.id = "heading-order") = [] := by
    refine List.filter_eq_nil_iff.mpr fun f hf => ?_
    rcases aria_shape hf with ⟨m, a, rfl⟩
    simp [ariaViolation]
  have hcontrast := contrastBlock_filter_nil html lvl "heading-order" (by decide)
  have hkbd : (validateKeyboardAccessibility html).filter (fun f => f.id = "heading-order")
      = [] := by
    refine List.filter_eq_nil_iff.mpr fun f hf => ?_
    rcases keyboard_shape hf with ⟨e, i, rfl⟩ | ⟨e, i, rfl⟩ <;>
      simp [linkNameViolation, focusableViolation]
  have hsem : (validateSemanticHTML html).filter (fun f => f.id = "heading-order")
      = headingFold 0 0 (headingMatches html) := by
    unfold validateSemanticHTML
    simp only [List.filter_append]
    have hh : (headingFold 0 0 (headingMatches html)).filter
        (fun f => f.id = "heading-order") = headingFold 0 0 (headingMatches html) := by
      refine List.filter_eq_self.mpr fun f hf => ?_
      simp [headingFold_id _ _ _ hf]
    have hp1 : (pageH1Part (headingMatches html)).filter
        (fun f => f.id = "heading-order") = [] := by
      refine List.filter_eq_nil_iff.mpr fun f hf => ?_
      simp [pageH1Part_id hf]
    have hlm : ((if !(incl html "<main" || incl html "role=\"main\"")
        then [landmarkViolation] else []).filter (fun f => f.id = "heading-order")) = [] := by
      split_ifs
      · simp [landmarkViolation]
      · rfl
    rw [hh, hp1, hlm, List.append_nil, List.append_nil]
  rw [himg, hinp, hstruct, haria, hcontrast, hkbd, hsem]
  simp

/-! ## C2 -/

/-- C2: the heading-order rule flags exactly the headings whose level
exceeds the immediately preceding heading's level by more than one (the
first heading has no predecessor and never triggers); concretely, the
level sequence [1, 2, 4] yields exactly one heading-order finding,
anchored at the `<h4>` tag, and [1, 2, 3] yields none. -/
theorem c2_heading_order (html url : String) (lvl : WcagLevel) :
    ((analyzeHTMLBasic html url lvl).filter (fun f => f.id = "heading-order")).length
        = headingSkipCount (headingLevels html)
      ∧ ((analyzeHTMLBasic skipMarkup "" .A).filter
            (fun f => f.id = "heading-order")).map (fun f => f.nodes.map VNode.html)
          = [["<h4>"]]
      ∧ (analyzeHTMLBasic noSkipMarkup "" .A).filter (fun f => f.id = "heading-order")
          = [] := by
  refine ⟨?_, by decide, by decide⟩
  rw [analyzeHTMLBasic_headingOrder_filter]
  exact headingFold_zero_length (headingMatches html) 0 (headingMatches_levels html)

/-! ## C7 -/

theorem contrastBlock_filter_ne_nil (html : String) (lvl : WcagLevel) :
    ((if lvl = .AA ∨ lvl = .AAA then analyzeColorContrast html else []).filter
        (fun f => f.id ≠ "color-contrast")) = [] := by
  split_ifs with hl
  · refine List.filter_eq_nil_iff.mpr fun f hf => ?_
    rcases contrast_shape hf with ⟨el, rfl⟩
    simp [contrastViolation]
  · rfl

/-- C7: rule activation is monotone in the conformance level — the AAA
output equals the AA output, the Base output is a sublist of the AA
output, and the findings of the level-independent (shared) rules are
identical across all levels. -/
theorem c7_level_monotonicity (html url : String) :
    analyzeHTMLBasic html url .AAA = analyzeHTMLBasic html url .AA
      ∧ (analyzeHTMLBasic html url .A).Sublist (analyzeHTMLBasic html url .AA)
      ∧ ∀ l1 l2, (analyzeHTMLBasic html url l1).filter (fun f => f.id ≠ "color-contrast")
          = (analyzeHTMLBasic html url l2).filter (fun f => f.id ≠ "color-contrast") := by
  refine ⟨?_, ?_, ?_⟩
  · unfold analyzeHTMLBasic
    simp
  · unfold analyzeHTMLBasic
    rw [if_neg (by decide), if_pos (by exact Or.inl rfl)]
    exact ((List.Sublist.refl _).append (List.nil_sublist _)).append (List.Sublist.refl _)
  · intro l1 l2
    unfold analyzeHTMLBasic
    simp only [List.filter_append]
    rw [contrastBlock_filter_ne_nil html l1, contrastBlock_filter_ne_nil html l2]

/-! ## C9 -/

theorem truncate100_length (s : String) : (truncate100 s).data.length ≤ 103 := by
  unfold truncate100
  have h1 : (s.data.take 100).length ≤ 100 := List.length_take_le 100 s.data
  have h3 : ((⟨s.data.take 100⟩ : String)).data = s.data.take 100 := rfl
  split_ifs with h
  · rw [String.data_append, List.length_append, h3]
    have h2 : ("..." : String).data.length = 3 := rfl
    omega
  · rw [String.data_append, List.length_append, h3]
    have h2 : ("" : String).data.length = 0 := rfl
    omega

theorem truncate100_short {s : String} (h : s.data.length ≤ 100) : truncate100 s = s := by
  unfold truncate100
  rw [if_neg (by omega), List.take_of_length_le h]
  apply String.ext
  rw [String.data_append]
  simp

theorem truncate100_long {s : String} (h : 100 < s.data.length) :
    truncate100 s = (⟨s.data.take 100⟩ : String) ++ "..." := by
  unfold truncate100
  rw [if_pos h]

/-- C9 counterexample: the `html-has-lang` finding on a long root tag
carries an evidence snippet of 107 characters — beyond any
truncate-to-100-plus-ellipsis bound. -/
theorem c9_untruncated_snippet :
    ∃ f ∈ analyzeHTMLBasic longAttrTag "" .A, ∃ n ∈ f.nodes,
      103 < n.html.data.length := by
  decide

/-- C9 (amended): evidence snippets of the image, form-label, contrast
and keyboard rules are produced by the 100-character truncation (at most
103 characters, verbatim when the source element is short, 100
characters plus an ellipsis when longer); the structural, heading and
ARIA rules embed their matched markup without truncation. -/
theorem c9_truncated_snippets (html url : String) (lvl : WcagLevel)
    (f : Violation) (n : VNode) (hf : f ∈ analyzeHTMLBasic html url lvl)
    (hn : n ∈ f.nodes) (hid : f.id ∈ truncatingRuleIds) :
    ∃ src, n.html = truncate100 src
      ∧ (truncate100 src).data.length ≤ 103
      ∧ (src.data.length ≤ 100 → truncate100 src = src)
      ∧ (100 < src.data.length →
          truncate100 src = (⟨src.data.take 100⟩ : String) ++ "...") := by
  have mk : ∀ src : String, n.html = truncate100 src →
      ∃ src, n.html = truncate100 src
        ∧ (truncate100 src).data.length ≤ 103
        ∧ (src.data.length ≤ 100 → truncate100 src = src)
        ∧ (100 < src.data.length →
            truncate100 src = (⟨src.data.take 100⟩ : String) ++ "...") :=
    fun src hsrc => ⟨src, hsrc, truncate100_length src,
      fun h => truncate100_short h, fun h => truncate100_long h⟩
  unfold analyzeHTMLBasic at hf
  simp only [List.mem_append] at hf
  rcases hf with ((((((hf | hf) | hf) | hf) | hf) | hf) | hf)
  · rcases imageFindings_shape hf with ⟨img, idx, rfl⟩
    simp only [imageViolation, List.mem_singleton] at hn
    subst hn
    exact mk img rfl
  · rcases inputFindings_shape hf with ⟨inp, idx, rfl⟩
    simp only [labelViolation, List.mem_singleton] at hn
    subst hn
    exact mk inp rfl
  · rcases structure_id hf with h | h | h <;> rw [h] at hid <;>
      exact absurd hid (by decide)
  · rcases semantic_id hf with h | h | h <;> rw [h] at hid <;>
      exact absurd hid (by decide)
  · rcases aria_shape hf with ⟨m, a, rfl⟩
    rw [show (ariaViolation m a).id = "aria-valid-attr" from rfl] at hid
    exact absurd hid (by decide)
  · have hc : f ∈ analyzeColorContrast html := by
      by_cases hl : lvl = .AA ∨ lvl = .AAA
      · rwa [if_pos hl] at hf
      · rw [if_neg hl] at hf; exact absurd hf (by simp)
    rcases contrast_shape hc with ⟨el, rfl⟩
    simp only [contrastViolation, List.mem_singleton] at hn
    subst hn
    exact mk el rfl
  · rcases keyboard_shape hf with ⟨el, idx, rfl⟩ | ⟨el, idx, rfl⟩ <;>
      simp only [linkNameViolation, focusableViolation, List.mem_singleton] at hn <;>
      subst hn
    · exact mk el rfl
    · exact mk el rfl

/-- C9 witness: the snippet of the `image-alt` finding on `"<img>"`. -/
theorem c9_truncated_snippets_witness :
    ∃ src, sampleImgNode.html = truncate100 src
      ∧ (truncate100 src).data.length ≤ 103
      ∧ (src.data.length ≤ 100 → truncate100 src = src)
      ∧ (100 < src.data.length →
          truncate100 src = (⟨src.data.take 100⟩ : String) ++ "...") :=
  c9_truncated_snippets "<img>" "" .A (imageViolation "<img>" 0) sampleImgNode
    (by decide) (by decide) (by decide)

end A11y
